import Mathlib

/-!
Verification of the document-store layer (`DataService`) of the
doctor-json-server repository against its natural-language specification.

The `DataService` class performs whole-file CRUD over JSON collections.
Each asynchronous method is embedded as a pure Lean function:

* the parsed content of a collection's backing file is passed in as a
  `List` argument (a successful `readDataFile`), or as an
  `Except String` value when the claim is about read failures;
* each `new Date().toISOString()` is modelled by an explicit
  `String` argument holding the reading of the current time; in
  `createBlogPost`, whose two readings feed two distinct stored fields,
  the two calls are kept as two separate arguments (nothing in the
  source makes them equal); in `createPage` and `updatePage` no proved
  statement relates one reading to another, so one `now` argument
  stands for the readings of a call;
* `this.generateId()` (current time in base 36 plus randomness, no
  collision check in the source) is modelled by an explicit
  `genId : String` argument, treating the time-plus-randomness token as
  a nondeterministic input;
* a mutating method returns both its result and the content handed to
  `writeDataFile`, as `Option` — `none` means the method returned
  before reaching the write.

Record types mirror `src/types/index.ts` field-for-field; TypeScript
optional fields (`?:`) become `Option`, `any` becomes an abstract `Json`
value, and TS string-literal unions are carried as `String` (the store
never inspects them).
-/

/-- JSON values, standing in for TypeScript `any` fields (`structuredData`,
`PageComponent.data`, `schemaMarkup` members).  The store never inspects
these values; they are carried opaquely. -/
inductive Json where
  | null : Json
  | bool : Bool → Json
  | num : Int → Json
  | str : String → Json
  | arr : List Json → Json
  | obj : List (String × Json) → Json

/-- Interface `SEOMetadata` from src/types/index.ts. -/
structure SEOMetadata where
  metaTitle : String
  metaDescription : String
  keywords : List String
  author : String
  ogTitle : Option String := none
  ogDescription : Option String := none
  ogImage : Option String := none
  ogUrl : Option String := none
  ogType : Option String := none
  twitterCard : Option String := none
  twitterTitle : Option String := none
  twitterDescription : Option String := none
  twitterImage : Option String := none
  canonicalUrl : Option String := none
  structuredData : Option Json := none

/-- Interface `PageComponent` from src/types/index.ts. -/
structure PageComponent where
  id : String
  type : String
  data : Json
  order : Int

/-- Interface `Page` from src/types/index.ts. -/
structure Page where
  id : String
  slug : String
  title : String
  content : String
  template : String
  status : String
  createdAt : String
  updatedAt : String
  seo : SEOMetadata
  components : List PageComponent

/-- Type `Partial<Page>`: every field optional, `none` meaning the caller's
update object does not mention the field. -/
structure PartialPage where
  id : Option String := none
  slug : Option String := none
  title : Option String := none
  content : Option String := none
  template : Option String := none
  status : Option String := none
  createdAt : Option String := none
  updatedAt : Option String := none
  seo : Option SEOMetadata := none
  components : Option (List PageComponent) := none

/-- Type `Omit<Page, 'id' | 'createdAt' | 'updatedAt'>`: the caller-supplied
part of a page in `createPage`. -/
structure PageInput where
  slug : String
  title : String
  content : String
  template : String
  status : String
  seo : SEOMetadata
  components : List PageComponent

/-- The spread `{ ...page, ...updates }` for `updates : Partial<Page>`:
every field the update supplies wins, every field it omits is taken from
the existing record. -/
def mergePage (page : Page) (updates : PartialPage) : Page :=
  { id := updates.id.getD page.id
    slug := updates.slug.getD page.slug
    title := updates.title.getD page.title
    content := updates.content.getD page.content
    template := updates.template.getD page.template
    status := updates.status.getD page.status
    createdAt := updates.createdAt.getD page.createdAt
    updatedAt := updates.updatedAt.getD page.updatedAt
    seo := updates.seo.getD page.seo
    components := updates.components.getD page.components }

/-- Method `DataService.getPageBySlug`: `pages.find(page => page.slug === slug) || null`. -/
def getPageBySlug (pages : List Page) (slug : String) : Option Page :=
  pages.find? (fun page => page.slug == slug)

/-- Method `DataService.getPageById`: `pages.find(page => page.id === id) || null`. -/
def getPageById (pages : List Page) (id : String) : Option Page :=
  pages.find? (fun page => page.id == id)

/-- Method `DataService.createPage`: builds `{ ...page, id: generateId(),
createdAt: now, updatedAt: now }`, pushes it onto the collection and
writes the whole collection back.  Returns the new record and the
written collection content. -/
def createPage (pages : List Page) (page : PageInput) (genId : String) (now : String) :
    Page × List Page :=
  let newPage : Page :=
    { id := genId
      slug := page.slug
      title := page.title
      content := page.content
      template := page.template
      status := page.status
      createdAt := now
      updatedAt := now
      seo := page.seo
      components := page.components }
  (newPage, pages ++ [newPage])

/-- Method `DataService.updatePage`: `findIndex` on `id`; on `-1` returns `null`
with no write; otherwise builds `{ ...pages[index], ...updates,
updatedAt: now }`, stores it back at the same index and writes the whole
collection.  First component: the returned record (`null` = `none`);
second component: the content handed to `writeDataFile` (`none` = no
write happened). -/
def updatePage (pages : List Page) (id : String) (updates : PartialPage) (now : String) :
    Option Page × Option (List Page) :=
  match pages.findIdx? (fun page => page.id == id) with
  | none => (none, none)
  | some index =>
    match pages[index]? with
    | none => (none, none)
    | some page =>
      let updatedPage : Page := { mergePage page updates with updatedAt := now }
      (some updatedPage, some (pages.set index updatedPage))

/-- Method `DataService.deletePage`: filters out the matching id; if nothing was
removed returns `false` without writing, otherwise writes the filtered
collection and returns `true`.  Second component: the content handed to
`writeDataFile` (`none` = no write happened). -/
def deletePage (pages : List Page) (id : String) : Bool × Option (List Page) :=
  let filteredPages := pages.filter (fun page => page.id != id)
  if filteredPages.length == pages.length then (false, none)
  else (true, some filteredPages)

/-- One `createPage` call in a sequence of creates: the caller-supplied
fields together with the `generateId()` token and the clock reading that
the call happens to draw. -/
structure CreateReq where
  input : PageInput
  genId : String
  now : String

/-- A sequence of `createPage` calls against one collection, each call
reading back the collection content written by the previous one (no
intervening mutation by anybody else). -/
def createPages (pages : List Page) (reqs : List CreateReq) : List Page :=
  reqs.foldl (fun acc r => (createPage acc r.input r.genId r.now).2) pages

/-- Interface `BlogAuthor.social` from src/types/index.ts. -/
structure BlogSocial where
  twitter : String
  linkedin : String
  website : String
  facebook : String

/-- Interface `BlogAuthor` from src/types/index.ts. -/
structure BlogAuthor where
  id : String
  name : String
  bio : String
  avatar : String
  title : String
  email : String
  social : BlogSocial

/-- Interface `BlogCategory` from src/types/index.ts. -/
structure BlogCategory where
  id : String
  name : String
  slug : String
  description : String
  color : String
  icon : String
  seo : SEOMetadata

/-- Interface `BlogPost` from src/types/index.ts. -/
structure BlogPost where
  id : String
  title : String
  slug : String
  excerpt : String
  content : String
  featuredImage : String
  author : BlogAuthor
  publishedDate : String
  updatedDate : Option String := none
  categories : List BlogCategory
  tags : List String
  readTime : Int
  status : String
  views : Int
  likes : Int
  seo : SEOMetadata

/-- Type `Omit<BlogPost, 'id' | 'publishedDate' | 'updatedDate' | 'views' | 'likes'>`:
the caller-supplied part of a blog post in `createBlogPost`. -/
structure BlogPostInput where
  title : String
  slug : String
  excerpt : String
  content : String
  featuredImage : String
  author : BlogAuthor
  categories : List BlogCategory
  tags : List String
  readTime : Int
  status : String
  seo : SEOMetadata

/-- Method `DataService.createBlogPost`: builds `{ ...post, id: generateId(),
publishedDate: new Date().toISOString(), updatedDate: new Date().toISOString(),
views: 0, likes: 0 }`, pushes it and writes the whole collection back.
The two `new Date().toISOString()` calls are two independent clock
readings — `nowPublished` for `publishedDate` and `nowUpdated` for
`updatedDate`, in the source's evaluation order; nothing ties them
together, and they differ when the millisecond clock ticks between the
two calls. -/
def createBlogPost (posts : List BlogPost) (post : BlogPostInput) (genId : String)
    (nowPublished : String) (nowUpdated : String) : BlogPost × List BlogPost :=
  let newPost : BlogPost :=
    { id := genId
      title := post.title
      slug := post.slug
      excerpt := post.excerpt
      content := post.content
      featuredImage := post.featuredImage
      author := post.author
      publishedDate := nowPublished
      updatedDate := some nowUpdated
      categories := post.categories
      tags := post.tags
      readTime := post.readTime
      status := post.status
      views := 0
      likes := 0
      seo := post.seo }
  (newPost, posts ++ [newPost])

/-- Interface `TimeSlot` from src/types/index.ts. -/
structure TimeSlot where
  start : String
  «end» : String

/-- Interface `DoctorAvailability` from src/types/index.ts. -/
structure DoctorAvailability where
  monday : Option (List TimeSlot) := none
  tuesday : Option (List TimeSlot) := none
  wednesday : Option (List TimeSlot) := none
  thursday : Option (List TimeSlot) := none
  friday : Option (List TimeSlot) := none
  saturday : Option (List TimeSlot) := none
  sunday : Option (List TimeSlot) := none

/-- Interface `DoctorContact.social` from src/types/index.ts. -/
structure DoctorSocial where
  facebook : String
  twitter : String
  linkedin : String

/-- Interface `DoctorContact` from src/types/index.ts. -/
structure DoctorContact where
  phone : String
  email : String
  address : String
  clinicName : Option String := none
  social : DoctorSocial

/-- Interface `Doctor` from src/types/index.ts. -/
structure Doctor where
  id : String
  name : String
  bio : String
  slug : String
  title : String
  specialization : List String
  experience : Int
  education : List String
  about : String
  profileImage : String
  rating : Int
  totalReviews : Int
  availability : DoctorAvailability
  contact : DoctorContact
  languages : List String
  certifications : List String
  awards : Option (List String) := none
  seo : SEOMetadata

/-- Type `Partial<Doctor>`: every field of `Doctor` made optional. -/
structure PartialDoctor where
  id : Option String := none
  name : Option String := none
  bio : Option String := none
  slug : Option String := none
  title : Option String := none
  specialization : Option (List String) := none
  experience : Option Int := none
  education : Option (List String) := none
  about : Option String := none
  profileImage : Option String := none
  rating : Option Int := none
  totalReviews : Option Int := none
  availability : Option DoctorAvailability := none
  contact : Option DoctorContact := none
  languages : Option (List String) := none
  certifications : Option (List String) := none
  awards : Option (List String) := none
  seo : Option SEOMetadata := none

/-- The spread `{ ...doctor, ...updates }` for `updates : Partial<Doctor>`. -/
def mergeDoctor (doctor : Doctor) (updates : PartialDoctor) : Doctor :=
  { id := updates.id.getD doctor.id
    name := updates.name.getD doctor.name
    bio := updates.bio.getD doctor.bio
    slug := updates.slug.getD doctor.slug
    title := updates.title.getD doctor.title
    specialization := updates.specialization.getD doctor.specialization
    experience := updates.experience.getD doctor.experience
    education := updates.education.getD doctor.education
    about := updates.about.getD doctor.about
    profileImage := updates.profileImage.getD doctor.profileImage
    rating := updates.rating.getD doctor.rating
    totalReviews := updates.totalReviews.getD doctor.totalReviews
    availability := updates.availability.getD doctor.availability
    contact := updates.contact.getD doctor.contact
    languages := updates.languages.getD doctor.languages
    certifications := updates.certifications.getD doctor.certifications
    awards := updates.awards.or doctor.awards
    seo := updates.seo.getD doctor.seo }

/-- Method `DataService.updateDoctor`: `findIndex` on `id`; on `-1` returns
`null` with no write; otherwise stores `{ ...doctors[index], ...updates }`
back at the same index — note: no timestamp field is forced (the
`Doctor` type has none). -/
def updateDoctor (doctors : List Doctor) (id : String) (updates : PartialDoctor) :
    Option Doctor × Option (List Doctor) :=
  match doctors.findIdx? (fun doctor => doctor.id == id) with
  | none => (none, none)
  | some index =>
    match doctors[index]? with
    | none => (none, none)
    | some doctor =>
      let updatedDoctor : Doctor := mergeDoctor doctor updates
      (some updatedDoctor, some (doctors.set index updatedDoctor))

/-- Interface `CaseStudy` from src/types/index.ts. -/
structure CaseStudy where
  id : String
  name : String
  title : String
  slug : String
  description : String
  fullDescription : String
  profileImage : String
  specialization : List String
  symptoms : List String
  diagnosis : String
  treatment : String
  outcome : String
  beforeImage : Option String := none
  afterImage : Option String := none
  patientAge : Option Int := none
  patientGender : Option String := none
  procedureDate : String
  followUpDate : Option String := none
  status : String
  seo : SEOMetadata

/-- Interface `SEOSettings.schemaMarkup` from src/types/index.ts. -/
structure SchemaMarkup where
  organization : Json
  medicalBusiness : Option Json := none
  person : Option Json := none

/-- Interface `SEOSettings` from src/types/index.ts. -/
structure SEOSettings where
  id : String
  siteName : String
  siteDescription : String
  siteKeywords : List String
  siteAuthor : String
  siteUrl : String
  defaultOgImage : String
  defaultTwitterImage : String
  googleAnalyticsId : Option String := none
  googleTagManagerId : Option String := none
  facebookPixelId : Option String := none
  twitterUsername : Option String := none
  facebookPageId : Option String := none
  linkedinCompanyId : Option String := none
  schemaMarkup : SchemaMarkup

/-- Interface `Database` from src/types/index.ts: the five-field aggregate that
`getAllData` returns (`blogPosts` stands for the key `'blog-posts'`,
`seoSettings` for `'seo-settings'`). -/
structure Database where
  pages : List Page
  blogPosts : List BlogPost
  doctors : List Doctor
  cases : List CaseStudy
  seoSettings : SEOSettings

/-- The keys of the `Database` interface — exactly the collections
`getAllData` assembles. -/
def databaseKeys : List String :=
  ["pages", "blog-posts", "doctors", "cases", "seo-settings"]

/-- Every collection name the HTTP routing layer (src server routes)
serves: one entry per `router.get('/<name>' ...)` route family. -/
def knownCollections : List String :=
  ["pages", "blog-posts", "doctors", "cases", "seo-settings", "services",
   "testimonials", "appointments", "categories", "contact", "settings",
   "skills", "articles"]

/-- Method `DataService.getAllData`: `Promise.all` over the five collection
reads, then the `Database` object.  Each argument is the outcome of the
corresponding `readDataFile` (`Except.error` = the read threw).
`Promise.all` rejects as soon as any read rejects, so the aggregation is
all-or-nothing. -/
def getAllData (pagesR : Except String (List Page))
    (blogPostsR : Except String (List BlogPost))
    (doctorsR : Except String (List Doctor))
    (casesR : Except String (List CaseStudy))
    (seoSettingsR : Except String SEOSettings) : Except String Database := do
  let pages ← pagesR
  let blogPosts ← blogPostsR
  let doctors ← doctorsR
  let cs ← casesR
  let seoSettings ← seoSettingsR
  pure { pages := pages, blogPosts := blogPosts, doctors := doctors,
         cases := cs, seoSettings := seoSettings }

/-- Operation `getPageBySlug` seen from the caller of `readDataFile`: a failed read
propagates as an error, a successful read never produces one. -/
def getPageBySlugE (pagesR : Except String (List Page)) (slug : String) :
    Except String (Option Page) :=
  pagesR.map (fun pages => getPageBySlug pages slug)

/-- Operation `getPageById` seen from the caller of `readDataFile`. -/
def getPageByIdE (pagesR : Except String (List Page)) (id : String) :
    Except String (Option Page) :=
  pagesR.map (fun pages => getPageById pages id)

/-- Operation `deletePage` seen from the caller of `readDataFile`. -/
def deletePageE (pagesR : Except String (List Page)) (id : String) :
    Except String (Bool × Option (List Page)) :=
  pagesR.map (fun pages => deletePage pages id)

/-- A minimal concrete `SEOMetadata`, used by the concrete instantiations. -/
def seo0 : SEOMetadata :=
  { metaTitle := "t", metaDescription := "d", keywords := [], author := "a" }

/-- A concrete stored page with `id` `"p1"` and `createdAt` of 2024. -/
def page1 : Page :=
  { id := "p1", slug := "home", title := "Home", content := "welcome"
    template := "home", status := "published"
    createdAt := "2024-01-01T00:00:00.000Z", updatedAt := "2024-01-01T00:00:00.000Z"
    seo := seo0, components := [] }

/-- A one-page collection. -/
def pages1 : List Page := [page1]

/-- An update object that supplies only `createdAt` (a field the spec
says the store must ignore on update). -/
def updCreatedAt : PartialPage := { createdAt := some "1999-12-31T00:00:00.000Z" }

/-- An update object that supplies only `title`. -/
def updTitle : PartialPage := { title := some "Home v2" }

/-- A concrete caller-supplied page body. -/
def inputA : PageInput :=
  { slug := "a", title := "New A", content := "body", template := "custom"
    status := "draft", seo := seo0, components := [] }

/-- Two create calls whose `generateId()` tokens happen to coincide
(same millisecond, same random token). -/
def reqsDup : List CreateReq :=
  [{ input := inputA, genId := "dup", now := "T1" },
   { input := inputA, genId := "dup", now := "T2" }]

/-- Two create calls with distinct fresh tokens. -/
def reqsOk : List CreateReq :=
  [{ input := inputA, genId := "a1", now := "T1" },
   { input := inputA, genId := "a2", now := "T2" }]

/-- A concrete blog author. -/
def author1 : BlogAuthor :=
  { id := "au1", name := "A. Author", bio := "b", avatar := "av", title := "Dr."
    email := "a@example.com"
    social := { twitter := "", linkedin := "", website := "", facebook := "" } }

/-- A concrete caller-supplied blog post body. -/
def postInput1 : BlogPostInput :=
  { title := "Post", slug := "post", excerpt := "e", content := "c"
    featuredImage := "img", author := author1, categories := [], tags := []
    readTime := 3, status := "draft", seo := seo0 }

theorem updatePage_fst (pages : List Page) (id : String) (updates : PartialPage)
    (now : String) :
    (updatePage pages id updates now).1 =
      (getPageById pages id).map
        (fun page => { mergePage page updates with updatedAt := now }) := by
  induction pages with
  | nil => rfl
  | cons a l ih =>
    unfold updatePage getPageById at *
    by_cases hp : a.id == id
    · simp [List.findIdx?_cons, hp, List.find?_cons]
    · simp only [List.findIdx?_cons, hp, if_false, List.findIdx?_succ, List.find?_cons]
      cases h : l.findIdx? (fun page => page.id == id) with
      | none =>
        have hf : l.find? (fun page => page.id == id) = none :=
          List.find?_eq_none.mpr (fun x hx => by
            simpa using List.findIdx?_eq_none_iff.mp h x hx)
        simp [h, hf]
      | some j =>
        simp only [h, Option.map_some', List.getElem?_cons_succ]
        simp only [h] at ih
        cases hg : l[j]? with
        | none => simpa [hg, hp] using ih
        | some pg => simpa [hg, hp] using ih

theorem updatePage_not_found (pages : List Page) (id : String) (updates : PartialPage)
    (now : String) (h : ∀ page ∈ pages, page.id ≠ id) :
    updatePage pages id updates now = (none, none) := by
  have hidx : pages.findIdx? (fun page => page.id == id) = none :=
    List.findIdx?_eq_none_iff.mpr (fun x hx => by simpa using h x hx)
  unfold updatePage
  rw [hidx]

theorem createPages_map_id (reqs : List CreateReq) :
    ∀ pages : List Page,
      (createPages pages reqs).map Page.id =
        pages.map Page.id ++ reqs.map CreateReq.genId := by
  induction reqs with
  | nil => intro pages; simp [createPages]
  | cons r rs ih =>
    intro pages
    have step : createPages pages (r :: rs) =
        createPages (pages ++ [(createPage pages r.input r.genId r.now).1]) rs := rfl
    rw [step, ih]
    simp [createPage]

/-- C8: update on an absent id returns the not-found outcome (`none`) and
performs no write: `writeDataFile` is never reached, so the stored
collection content is unchanged. -/
theorem update_absent_id_has_no_side_effects (pages : List Page) (id : String)
    (updates : PartialPage) (now : String) (h : ∀ page ∈ pages, page.id ≠ id) :
    updatePage pages id updates now = (none, none) :=
  updatePage_not_found pages id updates now h

theorem update_absent_id_has_no_side_effects_witness :
    (∀ page ∈ pages1, page.id ≠ "zz") ∧
    updatePage pages1 "zz" updCreatedAt "T" = (none, none) :=
  ⟨by decide, update_absent_id_has_no_side_effects pages1 "zz" updCreatedAt "T" (by decide)⟩

/-- C1 counterexample: the source merges with `{ ...pages[index],
...updates, updatedAt: now }`, so a caller-supplied `createdAt` (and
likewise `id`) overrides the stored one.  Here the stored page has
`createdAt` of 2024, the caller's update supplies a 1999 `createdAt`,
and the updated record comes back with the 1999 value — the claim's
"leaves createdAt untouched regardless of what the caller supplies"
fails. -/
theorem update_caller_createdAt_wins :
    (getPageById pages1 "p1").map Page.createdAt = some "2024-01-01T00:00:00.000Z" ∧
    ((updatePage pages1 "p1" updCreatedAt "2025-06-01T00:00:00.000Z").1).map Page.createdAt
      = some "1999-12-31T00:00:00.000Z" := by
  constructor <;> rfl

/-- C1 amended: `updatePage` forces `updatedAt` to the current time, and
leaves `id` and `createdAt` unchanged exactly when the caller's update
does not supply them; a supplied `id` or `createdAt` overrides the
stored value. -/
theorem update_forces_updatedAt (pages : List Page) (id : String)
    (updates : PartialPage) (now : String) (old : Page)
    (h : getPageById pages id = some old) :
    ∃ r, (updatePage pages id updates now).1 = some r ∧
      r.updatedAt = now ∧
      (updates.id = none → r.id = old.id) ∧
      (updates.createdAt = none → r.createdAt = old.createdAt) ∧
      (∀ v, updates.id = some v → r.id = v) ∧
      (∀ v, updates.createdAt = some v → r.createdAt = v) := by
  refine ⟨{ mergePage old updates with updatedAt := now }, ?_, rfl, ?_, ?_, ?_, ?_⟩
  · rw [updatePage_fst, h, Option.map_some']
  · intro hnone; simp [mergePage, hnone]
  · intro hnone; simp [mergePage, hnone]
  · intro v hv; simp [mergePage, hv]
  · intro v hv; simp [mergePage, hv]

theorem update_forces_updatedAt_witness :
    getPageById pages1 "p1" = some page1 ∧
    (∃ r, (updatePage pages1 "p1" updCreatedAt "T9").1 = some r ∧
      r.updatedAt = "T9" ∧
      (updCreatedAt.id = none → r.id = page1.id) ∧
      (updCreatedAt.createdAt = none → r.createdAt = page1.createdAt) ∧
      (∀ v, updCreatedAt.id = some v → r.id = v) ∧
      (∀ v, updCreatedAt.createdAt = some v → r.createdAt = v)) :=
  ⟨rfl, update_forces_updatedAt pages1 "p1" updCreatedAt "T9" page1 rfl⟩

/-- C3: update has merge semantics — every field the update payload does
not supply keeps its value from the prior version of the record (the
store-managed `updatedAt` is forced to the current time), and a supplied
field takes the payload's value. -/
theorem update_merge_not_replace (pages : List Page) (id : String)
    (updates : PartialPage) (now : String) (old : Page)
    (h : getPageById pages id = some old) :
    ∃ r, (updatePage pages id updates now).1 = some r ∧
      (updates.slug = none → r.slug = old.slug) ∧
      (updates.title = none → r.title = old.title) ∧
      (updates.content = none → r.content = old.content) ∧
      (updates.template = none → r.template = old.template) ∧
      (updates.status = none → r.status = old.status) ∧
      (updates.seo = none → r.seo = old.seo) ∧
      (updates.components = none → r.components = old.components) ∧
      (updates.id = none → r.id = old.id) ∧
      (updates.createdAt = none → r.createdAt = old.createdAt) ∧
      (∀ v, updates.title = some v → r.title = v) ∧
      r.updatedAt = now := by
  refine ⟨{ mergePage old updates with updatedAt := now }, ?_, ?_, ?_, ?_, ?_, ?_, ?_, ?_,
    ?_, ?_, ?_, rfl⟩
  · rw [updatePage_fst, h, Option.map_some']
  all_goals intros; simp [mergePage, *]

theorem update_merge_not_replace_witness :
    getPageById pages1 "p1" = some page1 ∧
    (∃ r, (updatePage pages1 "p1" updTitle "T9").1 = some r ∧
      (updTitle.slug = none → r.slug = page1.slug) ∧
      (updTitle.title = none → r.title = page1.title) ∧
      (updTitle.content = none → r.content = page1.content) ∧
      (updTitle.template = none → r.template = page1.template) ∧
      (updTitle.status = none → r.status = page1.status) ∧
      (updTitle.seo = none → r.seo = page1.seo) ∧
      (updTitle.components = none → r.components = page1.components) ∧
      (updTitle.id = none → r.id = page1.id) ∧
      (updTitle.createdAt = none → r.createdAt = page1.createdAt) ∧
      (∀ v, updTitle.title = some v → r.title = v) ∧
      r.updatedAt = "T9") :=
  ⟨rfl, update_merge_not_replace pages1 "p1" updTitle "T9" page1 rfl⟩

/-- C2 counterexample: `generateId()` is current-time-base-36 plus a
random token and `createPage` never checks it against existing records,
so when two create calls draw the same token (same millisecond, same
random output) the two resulting records share an id. -/
theorem create_duplicate_token_duplicate_id :
    (createPages [] reqsDup).map Page.id = ["dup", "dup"] ∧
    ¬ ((createPages [] reqsDup).map Page.id).Nodup := by
  refine ⟨rfl, ?_⟩
  rw [(rfl : (createPages [] reqsDup).map Page.id = ["dup", "dup"])]
  decide

/-- C2 amended: the store merely appends the generated token as the new
record's id, so ids are pairwise distinct exactly as far as the
generated tokens are — if the pre-existing ids are pairwise distinct,
the generated tokens are pairwise distinct, and no token collides with a
pre-existing id, then no two records of the resulting collection share
an id. -/
theorem create_ids_nodup (pages : List Page) (reqs : List CreateReq)
    (hp : (pages.map Page.id).Nodup)
    (hg : (reqs.map CreateReq.genId).Nodup)
    (hd : ∀ g ∈ reqs.map CreateReq.genId, g ∉ pages.map Page.id) :
    ((createPages pages reqs).map Page.id).Nodup := by
  rw [createPages_map_id]
  exact List.nodup_append.mpr ⟨hp, hg, fun a ha hb => hd a hb ha⟩

theorem create_ids_nodup_witness :
    (pages1.map Page.id).Nodup ∧
    (reqsOk.map CreateReq.genId).Nodup ∧
    (∀ g ∈ reqsOk.map CreateReq.genId, g ∉ pages1.map Page.id) ∧
    ((createPages pages1 reqsOk).map Page.id).Nodup :=
  ⟨by decide, by decide, by decide,
    create_ids_nodup pages1 reqsOk (by decide) (by decide) (by decide)⟩

/-- C4 counterexample: when the generated id collides with the id of a
record already in the collection, `getPageById` (a first-match linear
scan) returns the pre-existing record, not the one `createPage` just
returned: here the created record has title `"New A"` but the lookup
returns the old record with title `"Home"`. -/
theorem create_roundtrip_fails_on_collision :
    ((createPage pages1 inputA "p1" "T3").1).id = "p1" ∧
    ((createPage pages1 inputA "p1" "T3").1).title = "New A" ∧
    (getPageById (createPage pages1 inputA "p1" "T3").2 "p1").map Page.title
      = some "Home" := by
  refine ⟨rfl, rfl, rfl⟩

/-- C4 amended: provided the generated id does not match any record
already in the collection, `getPageById` on the written collection at
the new record's id returns exactly the record `createPage` returned. -/
theorem create_getById_roundtrip (pages : List Page) (input : PageInput)
    (genId : String) (now : String) (h : ∀ page ∈ pages, page.id ≠ genId) :
    getPageById (createPage pages input genId now).2
      ((createPage pages input genId now).1).id
      = some (createPage pages input genId now).1 := by
  have hnone : pages.find? (fun page => page.id == genId) = none :=
    List.find?_eq_none.mpr (fun x hx => by simpa using h x hx)
  have hid : ((createPage pages input genId now).1).id = genId := rfl
  rw [hid]
  show getPageById (pages ++ [(createPage pages input genId now).1]) genId = _
  unfold getPageById
  rw [List.find?_append, hnone, Option.none_or]
  simp [createPage]

theorem create_getById_roundtrip_witness :
    (∀ page ∈ pages1, page.id ≠ "x9") ∧
    getPageById (createPage pages1 inputA "x9" "T3").2
      ((createPage pages1 inputA "x9" "T3").1).id
      = some (createPage pages1 inputA "x9" "T3").1 :=
  ⟨by decide, create_getById_roundtrip pages1 inputA "x9" "T3" (by decide)⟩

/-- C5: `getAllData` is all-or-nothing — it returns an aggregate exactly
when every one of the five collection reads succeeded; if any read
fails, no (partial) aggregate is returned. -/
theorem snapshot_fail_fast (pagesR : Except String (List Page))
    (blogPostsR : Except String (List BlogPost))
    (doctorsR : Except String (List Doctor))
    (casesR : Except String (List CaseStudy))
    (seoSettingsR : Except String SEOSettings) :
    (∃ db, getAllData pagesR blogPostsR doctorsR casesR seoSettingsR = .ok db) ↔
      ((∃ x, pagesR = .ok x) ∧ (∃ x, blogPostsR = .ok x) ∧ (∃ x, doctorsR = .ok x) ∧
        (∃ x, casesR = .ok x) ∧ (∃ x, seoSettingsR = .ok x)) := by
  cases pagesR <;> cases blogPostsR <;> cases doctorsR <;> cases casesR <;>
    cases seoSettingsR <;>
    simp [getAllData, Except.bind, Bind.bind, pure, Except.pure]

/-- C6 counterexample: the routing layer serves thirteen collections,
but the aggregate `Database` that `getAllData` assembles has only the
five keys in `databaseKeys`; `"services"` (among others) is routed but
absent from the aggregate. -/
theorem snapshot_omits_known_collections :
    "services" ∈ knownCollections ∧ "services" ∉ databaseKeys := by
  decide

/-- C6 amended: `getAllData` assembles exactly the five collections
pages, blog-posts, doctors, cases and seo-settings (each a key of the
routing layer's known collections); the other eight known collections
(services, testimonials, appointments, categories, contact, settings,
skills, articles) are not part of the aggregate. -/
theorem snapshot_assembles_five (ps : List Page) (bs : List BlogPost)
    (ds : List Doctor) (cs : List CaseStudy) (ss : SEOSettings) :
    getAllData (.ok ps) (.ok bs) (.ok ds) (.ok cs) (.ok ss) =
      .ok { pages := ps, blogPosts := bs, doctors := ds, cases := cs, seoSettings := ss } ∧
    databaseKeys ⊆ knownCollections ∧ ¬ knownCollections ⊆ databaseKeys := by
  refine ⟨rfl, by decide, by decide⟩

/-- C7: when the backing file reads and parses, a lookup or delete on an
absent key is a normal negative outcome, not a failure: `getPageBySlug`
and `getPageById` return `null`, `deletePage` returns `false` without
writing, and none of them produces the read-failure error. -/
theorem not_found_is_not_an_error (pages : List Page) (slug : String) (id : String)
    (hs : ∀ page ∈ pages, page.slug ≠ slug) (hi : ∀ page ∈ pages, page.id ≠ id) :
    getPageBySlugE (.ok pages) slug = .ok none ∧
    getPageByIdE (.ok pages) id = .ok none ∧
    deletePageE (.ok pages) id = .ok (false, none) := by
  refine ⟨?_, ?_, ?_⟩
  · show Except.ok (getPageBySlug pages slug) = .ok none
    rw [getPageBySlug, List.find?_eq_none.mpr (fun x hx => by simpa using hs x hx)]
  · show Except.ok (getPageById pages id) = .ok none
    rw [getPageById, List.find?_eq_none.mpr (fun x hx => by simpa using hi x hx)]
  · show Except.ok (deletePage pages id) = .ok (false, none)
    have hfil : pages.filter (fun page => page.id != id) = pages :=
      List.filter_eq_self.mpr (fun x hx => by simpa using hi x hx)
    rw [deletePage]
    simp [hfil]

theorem not_found_is_not_an_error_witness :
    (∀ page ∈ pages1, page.slug ≠ "nope") ∧ (∀ page ∈ pages1, page.id ≠ "zz") ∧
    (getPageBySlugE (.ok pages1) "nope" = .ok none ∧
     getPageByIdE (.ok pages1) "zz" = .ok none ∧
     deletePageE (.ok pages1) "zz" = .ok (false, none)) :=
  ⟨by decide, by decide,
    not_found_is_not_an_error pages1 "nope" "zz" (by decide) (by decide)⟩

/-- C9: delete is idempotent in effect — deleting an id absent from the
collection returns `false` (and writes nothing); deleting an existing id
returns `true`, and repeating the delete against the collection content
that was written returns `false` (and writes nothing). -/
theorem delete_idempotent (pages : List Page) (id : String) :
    ((∀ page ∈ pages, page.id ≠ id) → deletePage pages id = (false, none)) ∧
    ((∃ page ∈ pages, page.id = id) →
      (deletePage pages id).1 = true ∧
      ∀ pages', (deletePage pages id).2 = some pages' →
        deletePage pages' id = (false, none)) := by
  constructor
  · intro h
    have hfil : pages.filter (fun page => page.id != id) = pages :=
      List.filter_eq_self.mpr (fun x hx => by simpa using h x hx)
    rw [deletePage]
    simp [hfil]
  · intro h
    have hlt : (pages.filter (fun page => page.id != id)).length < pages.length := by
      apply List.length_filter_lt_length_iff_exists.mpr
      obtain ⟨x, hx, hxid⟩ := h
      exact ⟨x, hx, by simp [hxid]⟩
    have hne : ((pages.filter (fun page => page.id != id)).length == pages.length) = false := by
      simp [Nat.ne_of_lt hlt]
    constructor
    · rw [deletePage]
      simp only [hne, Bool.false_eq_true, if_false]
    · intro pages' hw
      rw [deletePage] at hw
      simp only [hne, Bool.false_eq_true, if_false] at hw
      have hpages' : pages' = pages.filter (fun page => page.id != id) :=
        (Option.some.injEq _ _ ▸ hw.symm :)
      have habs : ∀ page ∈ pages', page.id ≠ id := by
        intro p hp
        rw [hpages'] at hp
        have := (List.mem_filter.mp hp).2
        simpa using this
      have hfil : pages'.filter (fun page => page.id != id) = pages' :=
        List.filter_eq_self.mpr (fun x hx => by simpa using habs x hx)
      rw [deletePage]
      simp [hfil]

theorem delete_idempotent_witness :
    (∀ page ∈ pages1, page.id ≠ "zz") ∧ (∃ page ∈ pages1, page.id = "p1") ∧
    deletePage pages1 "zz" = (false, none) ∧
    (deletePage pages1 "p1").1 = true ∧
    (∀ pages', (deletePage pages1 "p1").2 = some pages' →
      deletePage pages' "p1" = (false, none)) :=
  ⟨by decide, by decide,
    (delete_idempotent pages1 "zz").1 (by decide),
    ((delete_idempotent pages1 "p1").2 (by decide)).1,
    ((delete_idempotent pages1 "p1").2 (by decide)).2⟩

/-- C10 counterexample: `createBlogPost` reads the clock once for
`publishedDate` and again, independently, for `updatedDate`; when the
millisecond clock ticks between the two `new Date()` calls the stored
record carries two different timestamps, so `publishedDate` equal to
`updatedDate` does not hold on every call (the forced counters still
do). -/
theorem createBlogPost_dates_can_differ :
    ((createBlogPost [] postInput1 "b1" "2024-01-01T00:00:00.999Z"
        "2024-01-01T00:00:01.000Z").1).views = 0 ∧
    ((createBlogPost [] postInput1 "b1" "2024-01-01T00:00:00.999Z"
        "2024-01-01T00:00:01.000Z").1).likes = 0 ∧
    ((createBlogPost [] postInput1 "b1" "2024-01-01T00:00:00.999Z"
        "2024-01-01T00:00:01.000Z").1).publishedDate = "2024-01-01T00:00:00.999Z" ∧
    ((createBlogPost [] postInput1 "b1" "2024-01-01T00:00:00.999Z"
        "2024-01-01T00:00:01.000Z").1).updatedDate = some "2024-01-01T00:00:01.000Z" ∧
    ((createBlogPost [] postInput1 "b1" "2024-01-01T00:00:00.999Z"
        "2024-01-01T00:00:01.000Z").1).updatedDate ≠
      some ((createBlogPost [] postInput1 "b1" "2024-01-01T00:00:00.999Z"
        "2024-01-01T00:00:01.000Z").1).publishedDate :=
  ⟨rfl, rfl, rfl, rfl, by decide⟩

/-- C10 amended: `createBlogPost` forces the store-managed counters
`views` and `likes` to `0` regardless of caller input (whose type also
omits them), and stamps `publishedDate` and `updatedDate` with the
method's two clock readings; `publishedDate` equals `updatedDate`
whenever the two `new Date()` calls read the same time — in particular
whenever both fall within the same millisecond. -/
theorem createBlogPost_forces_managed_fields (posts : List BlogPost)
    (post : BlogPostInput) (genId : String) (nowPublished : String)
    (nowUpdated : String) :
    ((createBlogPost posts post genId nowPublished nowUpdated).1).views = 0 ∧
    ((createBlogPost posts post genId nowPublished nowUpdated).1).likes = 0 ∧
    ((createBlogPost posts post genId nowPublished nowUpdated).1).publishedDate
      = nowPublished ∧
    ((createBlogPost posts post genId nowPublished nowUpdated).1).updatedDate
      = some nowUpdated ∧
    (nowPublished = nowUpdated →
      ((createBlogPost posts post genId nowPublished nowUpdated).1).updatedDate =
        some ((createBlogPost posts post genId nowPublished nowUpdated).1).publishedDate) :=
  ⟨rfl, rfl, rfl, rfl, fun h => by simp [createBlogPost, h]⟩

theorem createBlogPost_forces_managed_fields_witness :
    ("T0" : String) = "T0" ∧
    (((createBlogPost [] postInput1 "b1" "T0" "T0").1).views = 0 ∧
     ((createBlogPost [] postInput1 "b1" "T0" "T0").1).likes = 0 ∧
     ((createBlogPost [] postInput1 "b1" "T0" "T0").1).publishedDate = "T0" ∧
     ((createBlogPost [] postInput1 "b1" "T0" "T0").1).updatedDate = some "T0" ∧
     ((createBlogPost [] postInput1 "b1" "T0" "T0").1).updatedDate =
       some ((createBlogPost [] postInput1 "b1" "T0" "T0").1).publishedDate) :=
  ⟨rfl,
    (createBlogPost_forces_managed_fields [] postInput1 "b1" "T0" "T0").1,
    (createBlogPost_forces_managed_fields [] postInput1 "b1" "T0" "T0").2.1,
    (createBlogPost_forces_managed_fields [] postInput1 "b1" "T0" "T0").2.2.1,
    (createBlogPost_forces_managed_fields [] postInput1 "b1" "T0" "T0").2.2.2.1,
    (createBlogPost_forces_managed_fields [] postInput1 "b1" "T0" "T0").2.2.2.2 rfl⟩
